import Mathlib

/-!
Verification development for the Logo-Remover application.

The definitions below are a shallow embedding of the TypeScript sources:
the retry controller `withRetry`, the positional descriptor
`getPositionalDescription`, the two remote-edit-client operations
`removeObjectFromFrame` and `generateVideoFromFrame` (their error
normalisation), and the application state machine of `App.tsx`
(its handlers, the progress effect, and the render dispatch).
Asynchronous remote calls are modelled by passing in the outcome of each
attempt explicitly; JavaScript numbers used for pixel coordinates are
modelled by rationals, and delays in milliseconds by naturals.
-/

namespace LogoRemover

/-! ### String utilities

JavaScript `String.prototype.includes` and the one regular expression the
source uses are modelled over the character list of a `String`. -/

/-- Does the character list `s` start with the pattern `pat`? -/
def leadsWith : List Char → List Char → Bool
  | [], _ => true
  | _ :: _, [] => false
  | p :: ps, c :: cs => p == c && leadsWith ps cs

/-- Does the character list `l` contain `needle` as a contiguous run?
Models `String.prototype.includes` (empty needle is contained everywhere). -/
def hasSub (needle : List Char) : List Char → Bool
  | [] => needle.isEmpty
  | c :: rest => leadsWith needle (c :: rest) || hasSub needle rest

/-- String-level substring test: `hasSubStr hay needle` models
`hay.includes(needle)` from JavaScript. -/
def hasSubStr (hay needle : String) : Bool :=
  hasSub needle.data hay.data

/-- Value of a decimal digit character. -/
def digitVal (c : Char) : Nat := c.toNat - 48

/-- Models `parseInt(ds, 10)` on a non-empty run of decimal digits. -/
def digitsToNat (l : List Char) : Nat :=
  l.foldl (fun acc c => acc * 10 + digitVal c) 0

/-- The literal part of the regular expression the retry controller uses to
find an API-suggested delay in an error payload. -/
def retryDelayPat : List Char := "\x22retryDelay\x22:\x22".data

/-- Scanner for the regular expression match on the character list: find the
first position where the literal pattern is followed by at least one decimal
digit and return the value of the maximal digit run there. -/
def findRetryDelayAux : List Char → Option Nat
  | [] => none
  | c :: rest =>
    if leadsWith retryDelayPat (c :: rest) then
      let ds := ((c :: rest).drop retryDelayPat.length).takeWhile Char.isDigit
      if ds.isEmpty then findRetryDelayAux rest else some (digitsToNat ds)
    else findRetryDelayAux rest

/-- Models `errorString.match(/"retryDelay":"(\d+)/)` followed by
`parseInt(match[1], 10)` in `withRetry`. -/
def findRetryDelay (s : String) : Option Nat :=
  findRetryDelayAux s.data

/-! ### Retry Controller (`withRetry`, src/unnamed/part_000 lines 18-52) -/

/-- Source constant `MAX_RETRIES`. -/
def MAX_RETRIES : Nat := 3

/-- Quota-error classification from `withRetry`:
`errorString.includes("429") || errorString.includes("RESOURCE_EXHAUSTED")`. -/
def isQuotaError (errorString : String) : Bool :=
  hasSubStr errorString "429" || hasSubStr errorString "RESOURCE_EXHAUSTED"

/-- The delay computed before the retry that follows a quota error seen at
attempt index `i` (0-based): the API-suggested seconds value plus a 500 ms
buffer when present, else exponential backoff `5000 * 2 ^ i` milliseconds. -/
def computeDelay (errorString : String) (i : Nat) : Nat :=
  match findRetryDelay errorString with
  | some n => n * 1000 + 500
  | none => 5000 * 2 ^ i

/-- The distinguished quota-exceeded message thrown after all retries fail. -/
def quotaMessage (serviceName : String) : String :=
  "You have exceeded your API quota for " ++ serviceName ++
    ". After multiple retries, the service is still unavailable. Please check your plan and billing details, or try again later."

/-- Outcome of a `withRetry` run: the returned value, an immediately
re-thrown non-quota error, or the distinguished quota-exceeded error. -/
inductive RetryResult (T : Type) where
  | success (v : T)
  | propagated (e : String)
  | quotaExceeded (msg : String)
  deriving DecidableEq

/-- Observable trace of a `withRetry` run: its outcome, how many times the
wrapped operation was invoked, and the delays slept between attempts. -/
structure RetryTrace (T : Type) where
  result : RetryResult T
  attempts : Nat
  delays : List Nat
  deriving DecidableEq

/-- The loop of `withRetry`, at attempt index `i` with `fuel` loop
iterations remaining (`fuel = MAX_RETRIES - i`). The outcome of each
attempt is given by `op`; a quota error with iterations remaining records the computed
delay and retries, a quota error on the final iteration falls through to the
distinguished quota-exceeded throw, and any other error is re-thrown. -/
def withRetryGo {T : Type} (op : Nat → Except String T) (serviceName : String) :
    Nat → Nat → RetryTrace T
  | _, 0 => ⟨.quotaExceeded (quotaMessage serviceName), 0, []⟩
  | i, fuel + 1 =>
    match op i with
    | .ok v => ⟨.success v, 1, []⟩
    | .error e =>
      if isQuotaError e then
        match fuel with
        | 0 => ⟨.quotaExceeded (quotaMessage serviceName), 1, []⟩
        | f + 1 =>
          let rest := withRetryGo op serviceName (i + 1) (f + 1)
          ⟨rest.result, rest.attempts + 1, computeDelay e i :: rest.delays⟩
      else ⟨.propagated e, 1, []⟩

/-- Model of `withRetry(apiCall, serviceName)`: run the loop from attempt 0
with `MAX_RETRIES` iterations available. -/
def withRetry {T : Type} (op : Nat → Except String T) (serviceName : String) :
    RetryTrace T :=
  withRetryGo op serviceName 0 MAX_RETRIES

/-! ### Positional Descriptor (`getPositionalDescription`, lines 55-87) -/

/-- A drag-selection rectangle in pixel coordinates, from `types.ts`. -/
structure Selection where
  x : ℚ
  y : ℚ
  width : ℚ
  height : ℚ
  deriving DecidableEq

/-- Faithful translation of `getPositionalDescription`: classify the centre
of the selection into the 3×3 grid of image thirds and phrase the cell. -/
def getPositionalDescription (selection : Selection)
    (imageWidth imageHeight : ℚ) : String :=
  let centerX := selection.x + selection.width / 2
  let centerY := selection.y + selection.height / 2
  let horizontalThird := imageWidth / 3
  let verticalThird := imageHeight / 3
  let verticalPos :=
    if centerY < verticalThird then "top"
    else if centerY > verticalThird * 2 then "bottom"
    else "middle"
  let horizontalPos :=
    if centerX < horizontalThird then "left"
    else if centerX > horizontalThird * 2 then "right"
    else "center"
  if verticalPos = "middle" ∧ horizontalPos = "center" then "in the center"
  else if verticalPos = "middle" then "in the center " ++ horizontalPos
  else if horizontalPos = "center" then "in the " ++ verticalPos ++ " center"
  else "in the " ++ verticalPos ++ " " ++ horizontalPos ++ " area"

/-- The nine phrases the Positional Descriptor can produce. -/
def ninePhrases : List String :=
  ["in the center", "in the center left", "in the center right",
   "in the top center", "in the bottom center",
   "in the top left area", "in the top right area",
   "in the bottom left area", "in the bottom right area"]

/-! ### Remote Edit Client (lines 101-227) -/

/-- One attempt body of `removeObjectFromFrame` (lines 103-137): the first
inline data of the first returned candidate part, if any, else the
no-image error. -/
def inpaintAttempt (firstPartInline : Option String) : Except String String :=
  match firstPartInline with
  | some d => .ok d
  | none => .error "No image data returned from API."

/-- Error normalisation of the outer catch of `removeObjectFromFrame`
(lines 139-153): quota errors pass through, a 403 becomes the invalid-key
message, everything else becomes the generic failure message. -/
def normalizeRemoveError (e : String) : String :=
  if hasSubStr e "API quota" then e
  else if hasSubStr e "403" then "API key is invalid or lacks permissions."
  else "Failed to process image with the AI model."

/-- Model of `removeObjectFromFrame`: run the wrapped call through
`withRetry` with label "image processing" and normalise any error. -/
def removeObjectFromFrame (op : Nat → Except String String) :
    Except String String :=
  match (withRetry op "image processing").result with
  | .success v => .ok v
  | .propagated e => .error (normalizeRemoveError e)
  | .quotaExceeded msg => .error (normalizeRemoveError msg)

/-- The download step of one `generateVideoFromFrame` attempt
(lines 187-203): a missing link, a failed download whose body carries the
entity-not-found marker, a failed download with some other body, or the
object URL of the downloaded bytes. -/
def videoAttempt (downloadLink : Option String) (fetchOk : Bool)
    (fetchBody : String) (status : Nat) (blobUrl : String) :
    Except String String :=
  match downloadLink with
  | none => .error "Video generation succeeded but no download link was provided."
  | some _ =>
    if fetchOk then .ok blobUrl
    else if hasSubStr fetchBody "Requested entity was not found." then
      .error "API key not found. Please select your API key again."
    else .error ("Failed to download the generated video. Status: " ++ toString status)

/-- Error normalisation of the outer catch of `generateVideoFromFrame`
(lines 205-226): quota and key-not-found errors pass through, 404/NOT_FOUND
and 403/API_KEY_INVALID get dedicated messages, the rest is generic. -/
def normalizeVideoError (e : String) : String :=
  if hasSubStr e "API quota" || hasSubStr e "API key not found" then e
  else if hasSubStr e "404" || hasSubStr e "NOT_FOUND" then
    "API key not found or project is not configured for Veo. Please select a valid API key again."
  else if hasSubStr e "403" || hasSubStr e "API_KEY_INVALID" then
    "API key is invalid or lacks permissions for the Veo model."
  else "Failed to generate video with the AI model."

/-- Model of `generateVideoFromFrame`: run the wrapped call through
`withRetry` with label "video generation" and normalise any error. -/
def generateVideoFromFrame (op : Nat → Except String String) :
    Except String String :=
  match (withRetry op "video generation").result with
  | .success v => .ok v
  | .propagated e => .error (normalizeVideoError e)
  | .quotaExceeded msg => .error (normalizeVideoError msg)

/-! ### Application State Machine (`App.tsx`) -/

/-- The `AppState` union type of `App.tsx`. -/
inductive AppState where
  | idle
  | video_loaded
  | processing
  | generating_video
  | complete
  | video_complete
  | error
  deriving DecidableEq

/-- The React state of the `App` component: one field per `useState` hook. -/
structure AppModel where
  appState : AppState
  videoFile : Option String
  frameSrc : Option String
  selection : Option Selection
  processedImageSrc : Option String
  processedVideoUrl : Option String
  isApiKeySelected : Option Bool
  error : Option String
  isQuotaError : Bool
  progress : Nat
  deriving DecidableEq

/-- The initial state of the component: `idle`, everything empty. -/
def initModel : AppModel :=
  ⟨.idle, none, none, none, none, none, none, none, false, 0⟩

/-- The progress-simulation effect (App.tsx lines 40-55), run whenever
`appState` changes: entering `processing` resets progress to 0 (the later
scheduled bumps to 15/40/75/90 are separate timer events); leaving
`processing` also sets progress to 0. -/
def progressEffect (m : AppModel) : AppModel :=
  if m.appState = AppState.processing then { m with progress := 0 }
  else { m with progress := 0 }

/-- Handler `handleFileSelect` (lines 77-92), with the outcome of
`extractFrame` passed in: store the file, clear errors, and either store the
frame and land in `video_loaded` or store the fixed message and fail. -/
def handleFileSelect (m : AppModel) (file : String)
    (extract : Except String String) : AppModel :=
  match extract with
  | .ok frame =>
    { m with videoFile := some file, error := none, isQuotaError := false,
             frameSrc := some frame, appState := .video_loaded }
  | .error _ =>
    { m with videoFile := some file, isQuotaError := false,
             error := some "Failed to load video or extract frame. Please try another file.",
             appState := .error }

/-- Handler `handleRemoveLogo` (lines 94-115), with the outcome of
`removeObjectFromFrame` passed in; the boolean reports whether the Inpaint
call was actually made. The guard returns early when no frame or no
selection is present. -/
def handleRemoveLogo (m : AppModel) (inpaint : Except String String) :
    AppModel × Bool :=
  if m.frameSrc = none ∨ m.selection = none then (m, false)
  else
    match inpaint with
    | .ok resultBase64 =>
      ({ m with error := none, isQuotaError := false, progress := 100,
                processedImageSrc := some ("data:image/png;base64," ++ resultBase64),
                appState := .complete }, true)
    | .error e =>
      ({ m with progress := 0, isQuotaError := hasSubStr e "API quota",
                error := some e, appState := .error }, true)

/-- Handler `handleGenerateVideo` (lines 117-139), with the outcome of
`generateVideoFromFrame` passed in; the boolean reports whether the Animate
call was actually made. -/
def handleGenerateVideo (m : AppModel) (outcome : Except String String) :
    AppModel × Bool :=
  if m.processedImageSrc = none then (m, false)
  else
    match outcome with
    | .ok videoUrl =>
      ({ m with error := none, isQuotaError := false,
                processedVideoUrl := some videoUrl,
                appState := .video_complete }, true)
    | .error e =>
      ({ m with isQuotaError :=
                  hasSubStr e "API quota" || hasSubStr e "API key not found",
                isApiKeySelected :=
                  if hasSubStr e "API key not found" then some false
                  else m.isApiKeySelected,
                error := some e, appState := .error }, true)

/-- Handler `handleChangeApiKey` (lines 58-75), with the resolved result of
the presence check passed in: record the presence; when a key is present
and a quota error was showing, clear the error and return to the state of
the furthest-along artifact. -/
def handleChangeApiKey (m : AppModel) (hasKey : Bool) : AppModel :=
  let m1 := { m with isApiKeySelected := some hasKey }
  if hasKey ∧ m.isQuotaError then
    let m2 := { m1 with isQuotaError := false, error := none }
    if m.processedImageSrc ≠ none then { m2 with appState := .complete }
    else if m.frameSrc ≠ none then { m2 with appState := .video_loaded }
    else m2
  else m1

/-- Handler `handleReset` (lines 141-151): back to `idle` with every
session field cleared (the credential flag is not touched). -/
def handleReset (m : AppModel) : AppModel :=
  { m with appState := .idle, videoFile := none, frameSrc := none,
           selection := none, processedImageSrc := none,
           processedVideoUrl := none, error := none, isQuotaError := false,
           progress := 0 }

/-- The disabled condition of the "Remove Object" button in `FrameSelector`
(ResultDisplay.tsx line 244): no selection, or one narrower or shorter than
5 pixels. -/
def removeDisabled (selection : Option Selection) : Bool :=
  match selection with
  | none => true
  | some s => decide (s.width < 5) || decide (s.height < 5)

/-- The confirm-removal user action: the UI only invokes `handleRemoveLogo`
when the button is enabled, and the handler consumes the outcome of
`removeObjectFromFrame` on the given attempt outcomes. -/
def confirmRemovalStep (m : AppModel) (op : Nat → Except String String) :
    AppModel × Bool :=
  if removeDisabled m.selection then (m, false)
  else handleRemoveLogo m (removeObjectFromFrame op)

/-- What `renderContent` (lines 153-239) shows for a given state. -/
inductive Panel where
  | uploader
  | frameSel
  | loader
  | videoLoader
  | result
  | videoResult
  | quotaPanel
  | genericError
  | nothing
  deriving DecidableEq

/-- The render dispatch of `renderContent`: in particular, the `error`
state renders the quota panel exactly when the quota flag is set. -/
def renderPanel (m : AppModel) : Panel :=
  match m.appState with
  | .idle => .uploader
  | .video_loaded => if m.frameSrc.isSome then .frameSel else .nothing
  | .processing => .loader
  | .generating_video => .videoLoader
  | .complete =>
    if m.frameSrc.isSome && m.processedImageSrc.isSome then .result
    else .nothing
  | .video_complete =>
    if m.frameSrc.isSome && m.processedImageSrc.isSome
        && m.processedVideoUrl.isSome then .videoResult
    else .nothing
  | .error => if m.isQuotaError then .quotaPanel else .genericError

/-- User intents and asynchronous completions driving the state machine;
remote-call events carry the per-attempt outcomes of the wrapped call. -/
inductive Event where
  | fileSelect (file : String) (extract : Except String String)
  | select (sel : Option Selection)
  | confirmRemoval (op : Nat → Except String String)
  | generateVideo (op : Nat → Except String String)
  | changeApiKey (hasKey : Bool)
  | reset
  | progressTick

/-- One step of the application state machine. -/
def step (m : AppModel) : Event → AppModel
  | .fileSelect f ex => handleFileSelect m f ex
  | .select s => { m with selection := s }
  | .confirmRemoval op => (confirmRemovalStep m op).1
  | .generateVideo op => (handleGenerateVideo m (generateVideoFromFrame op)).1
  | .changeApiKey k => handleChangeApiKey m k
  | .reset => handleReset m
  | .progressTick => progressEffect m

/-- Run the state machine from the initial state over a list of events. -/
def run (evs : List Event) : AppModel :=
  evs.foldl step initModel

/-- The reachability invariant of the application: in the `error` state a
non-empty message is stored, and whenever the quota flag is set at least
one artifact (frame or processed image) is still held. -/
def Inv (m : AppModel) : Prop :=
  (m.appState = .error → ∃ s, m.error = some s ∧ s ≠ "") ∧
  (m.isQuotaError = true → m.frameSrc ≠ none ∨ m.processedImageSrc ≠ none)

/-! ### Helper lemmas about the string utilities -/

theorem leadsWith_refl_append (l t : List Char) : leadsWith l (l ++ t) = true := by
  induction l with
  | nil => rfl
  | cons c cs ih => simp [leadsWith, ih]

theorem hasSub_append_left (n a l : List Char) (h : hasSub n l = true) :
    hasSub n (a ++ l) = true := by
  induction a with
  | nil => simpa using h
  | cons c cs ih => simp [hasSub, ih]

theorem hasSub_self_append (n t : List Char) : hasSub n (n ++ t) = true := by
  cases n with
  | nil => cases t <;> simp [hasSub, leadsWith]
  | cons c cs =>
    have h := leadsWith_refl_append (c :: cs) t
    simp only [List.cons_append] at h
    simp [hasSub, h]

theorem hasSubStr_append_middle (a s b : String) :
    hasSubStr (a ++ s ++ b) s = true := by
  simp only [hasSubStr, String.data_append, List.append_assoc]
  exact hasSub_append_left _ _ _ (hasSub_self_append _ _)

theorem normalizeRemoveError_ne_empty (e : String) :
    normalizeRemoveError e ≠ "" := by
  unfold normalizeRemoveError
  split_ifs with h1 h2
  · intro he; rw [he] at h1; exact absurd h1 (by decide)
  · decide
  · decide

theorem normalizeVideoError_ne_empty (e : String) :
    normalizeVideoError e ≠ "" := by
  unfold normalizeVideoError
  split_ifs with h1 h2 h3
  · intro he; rw [he] at h1; exact absurd h1 (by decide)
  · decide
  · decide
  · decide

theorem withRetryGo_zero {T : Type} (op : Nat → Except String T)
    (serviceName : String) (i : Nat) :
    withRetryGo op serviceName i 0
      = ⟨.quotaExceeded (quotaMessage serviceName), 0, []⟩ :=
  withRetryGo.eq_1 op serviceName i

theorem withRetryGo_succ {T : Type} (op : Nat → Except String T)
    (serviceName : String) (i fuel : Nat) :
    withRetryGo op serviceName i (fuel + 1) =
      match op i with
      | .ok v => ⟨.success v, 1, []⟩
      | .error e =>
        if isQuotaError e then
          match fuel with
          | 0 => ⟨.quotaExceeded (quotaMessage serviceName), 1, []⟩
          | f + 1 =>
            let rest := withRetryGo op serviceName (i + 1) (f + 1)
            ⟨rest.result, rest.attempts + 1, computeDelay e i :: rest.delays⟩
        else ⟨.propagated e, 1, []⟩ :=
  withRetryGo.eq_2 op serviceName i fuel

theorem withRetryGo_attempts_le {T : Type} (op : Nat → Except String T)
    (serviceName : String) :
    ∀ fuel i, (withRetryGo op serviceName i fuel).attempts ≤ fuel := by
  intro fuel
  induction fuel with
  | zero => intro i; exact Nat.le_refl 0
  | succ f ih =>
    intro i
    rw [withRetryGo_succ]
    cases h : op i with
    | ok v => exact Nat.succ_le_succ (Nat.zero_le f)
    | error e =>
      dsimp only
      by_cases hq : isQuotaError e = true
      · rw [if_pos hq]
        cases f with
        | zero => exact Nat.le_refl 1
        | succ f2 => exact Nat.succ_le_succ (ih (i + 1))
      · rw [if_neg hq]
        exact Nat.succ_le_succ (Nat.zero_le f)

theorem withRetryGo_ok {T : Type} (op : Nat → Except String T)
    (serviceName : String) (i fuel : Nat) (v : T) (h : op i = .ok v) :
    withRetryGo op serviceName i (fuel + 1) = ⟨.success v, 1, []⟩ := by
  rw [withRetryGo_succ, h]

theorem withRetryGo_nonquota {T : Type} (op : Nat → Except String T)
    (serviceName : String) (i fuel : Nat) (e : String)
    (h : op i = .error e) (hq : isQuotaError e = false) :
    withRetryGo op serviceName i (fuel + 1) = ⟨.propagated e, 1, []⟩ := by
  rw [withRetryGo_succ, h]
  dsimp only
  rw [if_neg]
  simp [hq]

theorem withRetryGo_quota_retry {T : Type} (op : Nat → Except String T)
    (serviceName : String) (i f : Nat) (e : String)
    (h : op i = .error e) (hq : isQuotaError e = true) :
    withRetryGo op serviceName i (f + 1 + 1) =
      ⟨(withRetryGo op serviceName (i + 1) (f + 1)).result,
       (withRetryGo op serviceName (i + 1) (f + 1)).attempts + 1,
       computeDelay e i :: (withRetryGo op serviceName (i + 1) (f + 1)).delays⟩ := by
  rw [withRetryGo_succ, h]
  dsimp only
  rw [if_pos hq]

theorem withRetryGo_quota_last {T : Type} (op : Nat → Except String T)
    (serviceName : String) (i : Nat) (e : String)
    (h : op i = .error e) (hq : isQuotaError e = true) :
    withRetryGo op serviceName i (0 + 1)
      = ⟨.quotaExceeded (quotaMessage serviceName), 1, []⟩ := by
  rw [withRetryGo_succ, h]
  dsimp only
  rw [if_pos hq]

/-! ### Claim C1 -/

/-- C1: the Retry Controller attempts the wrapped operation at most
`MAX_RETRIES = 3` times; quota errors on attempts 1 and 2 followed by a
success on attempt 3 return the success value with exactly 2 delays
performed; three quota failures produce the distinguished quota-exceeded
error whose message contains the supplied service name. -/
theorem c1_retry_controller (op : Nat → Except String String)
    (serviceName v e0 e1 e2 : String) :
    (withRetry op serviceName).attempts ≤ MAX_RETRIES ∧
    (op 0 = .error e0 → op 1 = .error e1 → op 2 = .ok v →
      isQuotaError e0 = true → isQuotaError e1 = true →
      (withRetry op serviceName).result = .success v ∧
        (withRetry op serviceName).delays.length = 2) ∧
    (op 0 = .error e0 → op 1 = .error e1 → op 2 = .error e2 →
      isQuotaError e0 = true → isQuotaError e1 = true →
      isQuotaError e2 = true →
      (withRetry op serviceName).result
          = .quotaExceeded (quotaMessage serviceName) ∧
        hasSubStr (quotaMessage serviceName) serviceName = true) := by
  refine ⟨withRetryGo_attempts_le op serviceName MAX_RETRIES 0, ?_, ?_⟩
  · intro h0 h1 h2 hq0 hq1
    have eval : withRetry op serviceName =
        ⟨.success v, 3, [computeDelay e0 0, computeDelay e1 (0 + 1)]⟩ := by
      rw [show withRetry op serviceName
            = withRetryGo op serviceName 0 (1 + 1 + 1) from rfl,
          withRetryGo_quota_retry op serviceName 0 1 e0 h0 hq0,
          withRetryGo_quota_retry op serviceName (0 + 1) 0 e1
            (show op (0 + 1) = .error e1 from h1) hq1,
          withRetryGo_ok op serviceName (0 + 1 + 1) 0 v
            (show op (0 + 1 + 1) = .ok v from h2)]
    rw [eval]
    exact ⟨rfl, rfl⟩
  · intro h0 h1 h2 hq0 hq1 hq2
    have eval : withRetry op serviceName =
        ⟨.quotaExceeded (quotaMessage serviceName), 3,
          [computeDelay e0 0, computeDelay e1 (0 + 1)]⟩ := by
      rw [show withRetry op serviceName
            = withRetryGo op serviceName 0 (1 + 1 + 1) from rfl,
          withRetryGo_quota_retry op serviceName 0 1 e0 h0 hq0,
          withRetryGo_quota_retry op serviceName (0 + 1) 0 e1
            (show op (0 + 1) = .error e1 from h1) hq1,
          withRetryGo_quota_last op serviceName (0 + 1 + 1) e2
            (show op (0 + 1 + 1) = .error e2 from h2) hq2]
    rw [eval]
    exact ⟨rfl,
      hasSubStr_append_middle "You have exceeded your API quota for "
        serviceName
        ". After multiple retries, the service is still unavailable. Please check your plan and billing details, or try again later."⟩

/-- Witness for C1: a run with quota failures on the first two attempts and
a success on the third, and a run where every attempt is a quota failure. -/
theorem c1_retry_controller_witness :
    ((withRetry
        (fun i : Nat =>
          if i = 2 then (Except.ok "v" : Except String String)
          else Except.error "429") "svc").result = RetryResult.success "v" ∧
      (withRetry
        (fun i : Nat =>
          if i = 2 then (Except.ok "v" : Except String String)
          else Except.error "429") "svc").delays.length = 2) ∧
    ((withRetry (fun _ : Nat => (Except.error "429" : Except String String))
        "svc").result = RetryResult.quotaExceeded (quotaMessage "svc") ∧
      hasSubStr (quotaMessage "svc") "svc" = true) :=
  ⟨(c1_retry_controller
      (fun i : Nat =>
        if i = 2 then (Except.ok "v" : Except String String)
        else Except.error "429")
      "svc" "v" "429" "429" "429").2.1
      rfl rfl rfl (by decide) (by decide),
    (c1_retry_controller
      (fun _ : Nat => (Except.error "429" : Except String String))
      "svc" "v" "429" "429" "429").2.2
      rfl rfl rfl (by decide) (by decide) (by decide)⟩

/-! ### Claim C2 -/

/-- C2: an attempt that fails with a non-quota error (text containing
neither "429" nor "RESOURCE_EXHAUSTED") ends the run at once: the error is
propagated unchanged, only that one attempt is made from that point, and no
delay is performed; in particular a first-attempt non-quota error ends the
whole `withRetry` run with one attempt and no delays. -/
theorem c2_nonquota_propagated (op : Nat → Except String String)
    (serviceName e : String) (i fuel : Nat)
    (h : op i = .error e) (hq : isQuotaError e = false) :
    withRetryGo op serviceName i (fuel + 1)
        = ⟨.propagated e, 1, []⟩ ∧
    (op 0 = .error e → withRetry op serviceName = ⟨.propagated e, 1, []⟩) := by
  refine ⟨withRetryGo_nonquota op serviceName i fuel e h hq, ?_⟩
  intro h0
  rw [show withRetry op serviceName
        = withRetryGo op serviceName 0 (1 + 1 + 1) from rfl]
  exact withRetryGo_nonquota op serviceName 0 (1 + 1) e h0 hq

/-- Witness for C2: a 500-type error on the first attempt is propagated
with a single attempt and no delays. -/
theorem c2_nonquota_propagated_witness :
    withRetryGo (fun _ : Nat => (Except.error "500 boom" : Except String String))
        "svc" 0 (0 + 1) = ⟨RetryResult.propagated "500 boom", 1, []⟩ ∧
    withRetry (fun _ : Nat => (Except.error "500 boom" : Except String String))
        "svc" = ⟨RetryResult.propagated "500 boom", 1, []⟩ :=
  ⟨(c2_nonquota_propagated
      (fun _ : Nat => (Except.error "500 boom" : Except String String))
      "svc" "500 boom" 0 0 rfl (by decide)).1,
    (c2_nonquota_propagated
      (fun _ : Nat => (Except.error "500 boom" : Except String String))
      "svc" "500 boom" 0 0 rfl (by decide)).2 rfl⟩

/-! ### Claim C3 -/

/-- C3: the wait recorded after a quota error at attempt index `i` that is
followed by another attempt equals `computeDelay`, which is the parsed
API-suggested delay of N seconds as `N*1000 + 500` milliseconds when the
payload carries one, and `5000 * 2 ^ i` milliseconds otherwise. -/
theorem c3_delay_schedule (op : Nat → Except String String)
    (serviceName e : String) (i f n : Nat)
    (h : op i = .error e) (hq : isQuotaError e = true) :
    (findRetryDelay e = some n → computeDelay e i = n * 1000 + 500) ∧
    (findRetryDelay e = none → computeDelay e i = 5000 * 2 ^ i) ∧
    (withRetryGo op serviceName i (f + 1 + 1)).delays
      = computeDelay e i
          :: (withRetryGo op serviceName (i + 1) (f + 1)).delays := by
  refine ⟨?_, ?_, ?_⟩
  · intro hf; simp [computeDelay, hf]
  · intro hf; simp [computeDelay, hf]
  · rw [withRetryGo_quota_retry op serviceName i f e h hq]

/-- Witness for C3: a quota payload suggesting a 12 second delay yields a
12500 ms wait, and one with no suggestion yields the 5000 ms base backoff,
both recorded before the following attempt. -/
theorem c3_delay_schedule_witness :
    ((findRetryDelay "429 \x22retryDelay\x22:\x2212s\x22" = some 12 →
        computeDelay "429 \x22retryDelay\x22:\x2212s\x22" 0 = 12 * 1000 + 500) ∧
      (findRetryDelay "429 \x22retryDelay\x22:\x2212s\x22" = none →
        computeDelay "429 \x22retryDelay\x22:\x2212s\x22" 0 = 5000 * 2 ^ 0) ∧
      (withRetryGo
          (fun _ : Nat =>
            (Except.error "429 \x22retryDelay\x22:\x2212s\x22" : Except String String))
          "svc" 0 (0 + 1 + 1)).delays
        = computeDelay "429 \x22retryDelay\x22:\x2212s\x22" 0
            :: (withRetryGo
                  (fun _ : Nat =>
                    (Except.error "429 \x22retryDelay\x22:\x2212s\x22" : Except String String))
                  "svc" (0 + 1) (0 + 1)).delays) ∧
    ((findRetryDelay "429" = some 12 →
        computeDelay "429" 1 = 12 * 1000 + 500) ∧
      (findRetryDelay "429" = none →
        computeDelay "429" 1 = 5000 * 2 ^ 1) ∧
      (withRetryGo (fun _ : Nat => (Except.error "429" : Except String String))
          "svc" 1 (0 + 1 + 1)).delays
        = computeDelay "429" 1
            :: (withRetryGo
                  (fun _ : Nat => (Except.error "429" : Except String String))
                  "svc" (1 + 1) (0 + 1)).delays) :=
  ⟨c3_delay_schedule
      (fun _ : Nat =>
        (Except.error "429 \x22retryDelay\x22:\x2212s\x22" : Except String String))
      "svc" "429 \x22retryDelay\x22:\x2212s\x22" 0 0 12 rfl (by decide),
    c3_delay_schedule
      (fun _ : Nat => (Except.error "429" : Except String String))
      "svc" "429" 1 0 12 rfl (by decide)⟩

/-! ### Claim C7 -/

set_option maxHeartbeats 2000000 in
/-- C7: for positive image dimensions the Positional Descriptor returns one
of nine fixed phrases, chosen by the 3×3 grid cell of image thirds that
contains the centre of the selection: strictly inside the middle third both ways
gives "in the center", the four corner cells give the corner "area"
phrases, and the edge cells give the centre-side phrases ("in the center
left", "in the center right") or the vertical-centre phrases ("in the top
center", "in the bottom center"). -/
theorem c7_positional_descriptor (sel : Selection) (w h : ℚ)
    (hw : 0 < w) (hh : 0 < h) :
    getPositionalDescription sel w h ∈ ninePhrases ∧
    (h / 3 < sel.y + sel.height / 2 → sel.y + sel.height / 2 < h / 3 * 2 →
      w / 3 < sel.x + sel.width / 2 → sel.x + sel.width / 2 < w / 3 * 2 →
      getPositionalDescription sel w h = "in the center") ∧
    (sel.y + sel.height / 2 < h / 3 → sel.x + sel.width / 2 < w / 3 →
      getPositionalDescription sel w h = "in the top left area") ∧
    (sel.y + sel.height / 2 < h / 3 → w / 3 * 2 < sel.x + sel.width / 2 →
      getPositionalDescription sel w h = "in the top right area") ∧
    (h / 3 * 2 < sel.y + sel.height / 2 → sel.x + sel.width / 2 < w / 3 →
      getPositionalDescription sel w h = "in the bottom left area") ∧
    (h / 3 * 2 < sel.y + sel.height / 2 → w / 3 * 2 < sel.x + sel.width / 2 →
      getPositionalDescription sel w h = "in the bottom right area") ∧
    (h / 3 ≤ sel.y + sel.height / 2 → sel.y + sel.height / 2 ≤ h / 3 * 2 →
      sel.x + sel.width / 2 < w / 3 →
      getPositionalDescription sel w h = "in the center left") ∧
    (h / 3 ≤ sel.y + sel.height / 2 → sel.y + sel.height / 2 ≤ h / 3 * 2 →
      w / 3 * 2 < sel.x + sel.width / 2 →
      getPositionalDescription sel w h = "in the center right") ∧
    (sel.y + sel.height / 2 < h / 3 → w / 3 ≤ sel.x + sel.width / 2 →
      sel.x + sel.width / 2 ≤ w / 3 * 2 →
      getPositionalDescription sel w h = "in the top center") ∧
    (h / 3 * 2 < sel.y + sel.height / 2 → w / 3 ≤ sel.x + sel.width / 2 →
      sel.x + sel.width / 2 ≤ w / 3 * 2 →
      getPositionalDescription sel w h = "in the bottom center") := by
  have hw3 : 0 < w / 3 := by linarith
  have hh3 : 0 < h / 3 := by linarith
  refine ⟨?_, ?_, ?_, ?_, ?_, ?_, ?_, ?_, ?_, ?_⟩
  · unfold getPositionalDescription
    dsimp only
    split_ifs <;> simp_all [ninePhrases]
  all_goals
    (intros
     unfold getPositionalDescription
     dsimp only
     split_ifs <;> first | rfl | (exfalso; linarith) | simp_all)

/-- Witness for C7: a 100×100 selection at (100,100) in a 300×300 image has
its centre at (150,150), strictly inside the middle cell, and the
descriptor says "in the center". -/
theorem c7_positional_descriptor_witness :
    getPositionalDescription ⟨100, 100, 100, 100⟩ 300 300 ∈ ninePhrases ∧
    getPositionalDescription ⟨100, 100, 100, 100⟩ 300 300 = "in the center" :=
  ⟨(c7_positional_descriptor ⟨100, 100, 100, 100⟩ 300 300
      (by norm_num) (by norm_num)).1,
    (c7_positional_descriptor ⟨100, 100, 100, 100⟩ 300 300
      (by norm_num) (by norm_num)).2.1
      (by norm_num) (by norm_num) (by norm_num) (by norm_num)⟩

/-! ### Claim C4 -/

/-- C4 counterexample: starting from `video_loaded` with a frame and a
selection, a successful Inpaint moves to `complete`, but once the progress
effect (re-run on the state change away from `processing`) has fired, the
settled `complete` state has progress 0, not 100 as the claim states. -/
theorem c4_counterexample :
    (progressEffect (handleRemoveLogo
        ⟨.video_loaded, some "v", some "f", some ⟨0, 0, 10, 10⟩,
         none, none, some true, none, false, 90⟩ (.ok "img")).1).appState
      = AppState.complete ∧
    ¬ (progressEffect (handleRemoveLogo
        ⟨.video_loaded, some "v", some "f", some ⟨0, 0, 10, 10⟩,
         none, none, some true, none, false, 90⟩ (.ok "img")).1).progress
      = 100 := by
  constructor
  · rfl
  · decide

/-- C4 (amended): when Inpaint succeeds with a frame and selection present,
the handler stores the processed image, sets progress to 100 and moves to
`complete`; the progress effect that re-runs on leaving `processing` then
resets progress to 0, so the settled state is `complete` with the artifact
stored and progress 0 (the 100 value is only transient). -/
theorem c4_inpaint_success (m : AppModel) (img : String)
    (hf : m.frameSrc ≠ none) (hs : m.selection ≠ none) :
    (handleRemoveLogo m (.ok img)).1.appState = .complete ∧
    (handleRemoveLogo m (.ok img)).1.processedImageSrc
      = some ("data:image/png;base64," ++ img) ∧
    (handleRemoveLogo m (.ok img)).1.progress = 100 ∧
    (progressEffect (handleRemoveLogo m (.ok img)).1).appState = .complete ∧
    (progressEffect (handleRemoveLogo m (.ok img)).1).progress = 0 := by
  have hguard : ¬(m.frameSrc = none ∨ m.selection = none) := by
    rintro (hc | hc)
    · exact hf hc
    · exact hs hc
  unfold handleRemoveLogo progressEffect
  rw [if_neg hguard]
  exact ⟨rfl, rfl, rfl, rfl, rfl⟩

/-- Witness for C4 (amended) at a concrete `video_loaded` state. -/
theorem c4_inpaint_success_witness :
    (handleRemoveLogo
        ⟨.video_loaded, some "v", some "f", some ⟨0, 0, 10, 10⟩,
         none, none, some true, none, false, 90⟩ (.ok "img")).1.appState
      = .complete ∧
    (handleRemoveLogo
        ⟨.video_loaded, some "v", some "f", some ⟨0, 0, 10, 10⟩,
         none, none, some true, none, false, 90⟩ (.ok "img")).1.processedImageSrc
      = some ("data:image/png;base64," ++ "img") ∧
    (handleRemoveLogo
        ⟨.video_loaded, some "v", some "f", some ⟨0, 0, 10, 10⟩,
         none, none, some true, none, false, 90⟩ (.ok "img")).1.progress = 100 ∧
    (progressEffect (handleRemoveLogo
        ⟨.video_loaded, some "v", some "f", some ⟨0, 0, 10, 10⟩,
         none, none, some true, none, false, 90⟩ (.ok "img")).1).appState
      = .complete ∧
    (progressEffect (handleRemoveLogo
        ⟨.video_loaded, some "v", some "f", some ⟨0, 0, 10, 10⟩,
         none, none, some true, none, false, 90⟩ (.ok "img")).1).progress = 0 :=
  c4_inpaint_success
    ⟨.video_loaded, some "v", some "f", some ⟨0, 0, 10, 10⟩,
     none, none, some true, none, false, 90⟩ "img"
    (by simp) (by simp)

/-! ### Claim C5 -/

/-- C5: from the `error` state with the quota flag set, a credential switch
that resolves present clears the error message and the quota flag, and
moves to `complete` when a processed image exists, else to `video_loaded`
when a frame exists. -/
theorem c5_change_key_recovers (m : AppModel)
    (hstate : m.appState = .error) (hq : m.isQuotaError = true) :
    (handleChangeApiKey m true).error = none ∧
    (handleChangeApiKey m true).isQuotaError = false ∧
    (m.processedImageSrc ≠ none →
      (handleChangeApiKey m true).appState = .complete) ∧
    (m.processedImageSrc = none → m.frameSrc ≠ none →
      (handleChangeApiKey m true).appState = .video_loaded) := by
  unfold handleChangeApiKey
  rw [if_pos ⟨rfl, hq⟩]
  refine ⟨?_, ?_, ?_, ?_⟩
  · split_ifs <;> rfl
  · split_ifs <;> rfl
  · intro hp
    rw [if_pos hp]
  · intro hp hf
    rw [if_neg (by simpa using hp), if_pos hf]

/-- Witness for C5: one quota-error state holding a processed image
recovers to `complete`, one holding only a frame recovers to
`video_loaded`; both clear the message and the flag. -/
theorem c5_change_key_recovers_witness :
    ((handleChangeApiKey
        ⟨.error, some "v", some "f", none, some "p", none, some true,
         some "quota", true, 0⟩ true).error = none ∧
      (handleChangeApiKey
        ⟨.error, some "v", some "f", none, some "p", none, some true,
         some "quota", true, 0⟩ true).isQuotaError = false ∧
      (handleChangeApiKey
        ⟨.error, some "v", some "f", none, some "p", none, some true,
         some "quota", true, 0⟩ true).appState = .complete) ∧
    (handleChangeApiKey
        ⟨.error, some "v", some "f", none, none, none, some true,
         some "quota", true, 0⟩ true).appState = .video_loaded :=
  ⟨⟨(c5_change_key_recovers
        ⟨.error, some "v", some "f", none, some "p", none, some true,
         some "quota", true, 0⟩ rfl rfl).1,
      (c5_change_key_recovers
        ⟨.error, some "v", some "f", none, some "p", none, some true,
         some "quota", true, 0⟩ rfl rfl).2.1,
      (c5_change_key_recovers
        ⟨.error, some "v", some "f", none, some "p", none, some true,
         some "quota", true, 0⟩ rfl rfl).2.2.1 (by simp)⟩,
    (c5_change_key_recovers
        ⟨.error, some "v", some "f", none, none, none, some true,
         some "quota", true, 0⟩ rfl rfl).2.2.2 rfl (by simp)⟩

/-! ### Claim C6 -/

/-- C6: a reset from any state returns to `idle` with every session field
cleared: file, frame, selection, processed image and processed video are
discarded, the error message and quota flag are cleared, progress is 0. -/
theorem c6_reset_clears (m : AppModel) :
    (step m .reset).appState = .idle ∧
    (step m .reset).videoFile = none ∧
    (step m .reset).frameSrc = none ∧
    (step m .reset).selection = none ∧
    (step m .reset).processedImageSrc = none ∧
    (step m .reset).processedVideoUrl = none ∧
    (step m .reset).error = none ∧
    (step m .reset).isQuotaError = false ∧
    (step m .reset).progress = 0 :=
  ⟨rfl, rfl, rfl, rfl, rfl, rfl, rfl, rfl, rfl⟩

/-! ### Claim C8 -/

/-- C8: from `video_loaded`, a confirm-removal with no frame loaded, or
with a selection whose width or height is below 5 pixels, is rejected with
no state change at all and without the Inpaint call being made. -/
theorem c8_confirm_removal_rejected (m : AppModel)
    (op : Nat → Except String String)
    (hstate : m.appState = .video_loaded)
    (hbad : m.frameSrc = none ∨
      ∃ s, m.selection = some s ∧ (s.width < 5 ∨ s.height < 5)) :
    confirmRemovalStep m op = (m, false) := by
  rcases hbad with hf | ⟨s, hs, hwh⟩
  · by_cases hd : removeDisabled m.selection = true
    · simp [confirmRemovalStep, hd]
    · simp [confirmRemovalStep, hd, handleRemoveLogo, hf]
  · have hd : removeDisabled m.selection = true := by
      rw [hs]
      unfold removeDisabled
      rcases hwh with h5 | h5 <;> simp [h5]
    simp [confirmRemovalStep, hd]

/-- Witness for C8: in `video_loaded` with a frame present, a 2-pixel-wide
selection leaves the state untouched and makes no call. -/
theorem c8_confirm_removal_rejected_witness :
    confirmRemovalStep
        ⟨.video_loaded, some "v", some "f", some ⟨0, 0, 2, 10⟩,
         none, none, some true, none, false, 0⟩
        (fun _ : Nat => (Except.error "x" : Except String String))
      = (⟨.video_loaded, some "v", some "f", some ⟨0, 0, 2, 10⟩,
          none, none, some true, none, false, 0⟩, false) :=
  c8_confirm_removal_rejected
    ⟨.video_loaded, some "v", some "f", some ⟨0, 0, 2, 10⟩,
     none, none, some true, none, false, 0⟩
    (fun _ : Nat => (Except.error "x" : Except String String)) rfl
    (Or.inr ⟨⟨0, 0, 2, 10⟩, rfl, Or.inl (by norm_num)⟩)

/-! ### Claim C10 -/

theorem renderPanel_error_quota (m : AppModel) (hst : m.appState = .error)
    (hq : m.isQuotaError = true) : renderPanel m = .quotaPanel := by
  unfold renderPanel
  rw [hst]
  simp [hq]

/-- C10: when the Animate path fails with a message containing
"API key not found", the handler sets the quota flag, marks the credential
absent, enters `error`, and that state renders the quota panel rather than
the generic error panel. -/
theorem c10_video_key_not_found (m : AppModel) (e : String)
    (hp : m.processedImageSrc ≠ none)
    (he : hasSubStr e "API key not found" = true) :
    (handleGenerateVideo m (.error e)).1.appState = .error ∧
    (handleGenerateVideo m (.error e)).1.isQuotaError = true ∧
    (handleGenerateVideo m (.error e)).1.isApiKeySelected = some false ∧
    renderPanel (handleGenerateVideo m (.error e)).1 = .quotaPanel := by
  have hguard : ¬(m.processedImageSrc = none) := hp
  have h1 : (handleGenerateVideo m (.error e)).1.appState = .error := by
    unfold handleGenerateVideo
    rw [if_neg hguard]
  have h2 : (handleGenerateVideo m (.error e)).1.isQuotaError = true := by
    unfold handleGenerateVideo
    rw [if_neg hguard]
    show (hasSubStr e "API quota" || hasSubStr e "API key not found") = true
    rw [he, Bool.or_true]
  have h3 : (handleGenerateVideo m (.error e)).1.isApiKeySelected
      = some false := by
    unfold handleGenerateVideo
    rw [if_neg hguard]
    show (if hasSubStr e "API key not found" = true then some false
          else m.isApiKeySelected) = some false
    rw [if_pos he]
  exact ⟨h1, h2, h3, renderPanel_error_quota _ h1 h2⟩

/-- Witness for C10 at the concrete message the download path throws. -/
theorem c10_video_key_not_found_witness :
    (handleGenerateVideo
        ⟨.complete, some "v", some "f", none, some "p", none, some true,
         none, false, 0⟩
        (.error "API key not found. Please select your API key again.")).1.appState
      = .error ∧
    (handleGenerateVideo
        ⟨.complete, some "v", some "f", none, some "p", none, some true,
         none, false, 0⟩
        (.error "API key not found. Please select your API key again.")).1.isQuotaError
      = true ∧
    (handleGenerateVideo
        ⟨.complete, some "v", some "f", none, some "p", none, some true,
         none, false, 0⟩
        (.error "API key not found. Please select your API key again.")).1.isApiKeySelected
      = some false ∧
    renderPanel (handleGenerateVideo
        ⟨.complete, some "v", some "f", none, some "p", none, some true,
         none, false, 0⟩
        (.error "API key not found. Please select your API key again.")).1
      = .quotaPanel :=
  c10_video_key_not_found
    ⟨.complete, some "v", some "f", none, some "p", none, some true,
     none, false, 0⟩
    "API key not found. Please select your API key again."
    (by simp) (by decide)

/-! ### Claim C9 -/

theorem removeObjectFromFrame_error_ne_empty (op : Nat → Except String String)
    (e : String) (h : removeObjectFromFrame op = .error e) : e ≠ "" := by
  unfold removeObjectFromFrame at h
  cases hres : (withRetry op "image processing").result with
  | success v => rw [hres] at h; simp at h
  | propagated e2 =>
    rw [hres] at h
    simp only [Except.error.injEq] at h
    rw [← h]
    exact normalizeRemoveError_ne_empty e2
  | quotaExceeded msg =>
    rw [hres] at h
    simp only [Except.error.injEq] at h
    rw [← h]
    exact normalizeRemoveError_ne_empty msg

theorem generateVideoFromFrame_error_ne_empty (op : Nat → Except String String)
    (e : String) (h : generateVideoFromFrame op = .error e) : e ≠ "" := by
  unfold generateVideoFromFrame at h
  cases hres : (withRetry op "video generation").result with
  | success v => rw [hres] at h; simp at h
  | propagated e2 =>
    rw [hres] at h
    simp only [Except.error.injEq] at h
    rw [← h]
    exact normalizeVideoError_ne_empty e2
  | quotaExceeded msg =>
    rw [hres] at h
    simp only [Except.error.injEq] at h
    rw [← h]
    exact normalizeVideoError_ne_empty msg

theorem inv_step (m : AppModel) (ev : Event) (hm : Inv m) : Inv (step m ev) := by
  obtain ⟨hm1, hm2⟩ := hm
  cases ev with
  | fileSelect f ex =>
    cases ex with
    | ok frame =>
      refine ⟨fun hst => ?_, fun hq => ?_⟩
      · simp [step, handleFileSelect] at hst
      · simp [step, handleFileSelect] at hq
    | error e =>
      refine ⟨fun _ =>
        ⟨"Failed to load video or extract frame. Please try another file.",
          rfl, by decide⟩, fun hq => ?_⟩
      simp [step, handleFileSelect] at hq
  | select s => exact ⟨hm1, hm2⟩
  | progressTick =>
    show Inv (progressEffect m)
    unfold progressEffect
    split
    · exact ⟨hm1, hm2⟩
    · exact ⟨hm1, hm2⟩
  | reset =>
    refine ⟨fun hst => ?_, fun hq => ?_⟩
    · simp [step, handleReset] at hst
    · simp [step, handleReset] at hq
  | changeApiKey k =>
    show Inv (handleChangeApiKey m k)
    unfold handleChangeApiKey
    by_cases hc : (k = true ∧ m.isQuotaError = true)
    · rw [if_pos hc]
      by_cases hp : m.processedImageSrc ≠ none
      · rw [if_pos hp]
        refine ⟨fun hst => ?_, fun hq => ?_⟩
        · simp at hst
        · simp at hq
      · rcases hm2 hc.2 with hfr | hpr
        · rw [if_neg hp, if_pos hfr]
          refine ⟨fun hst => ?_, fun hq => ?_⟩
          · simp at hst
          · simp at hq
        · exact absurd hpr hp
    · rw [if_neg hc]
      exact ⟨hm1, hm2⟩
  | confirmRemoval op =>
    show Inv (confirmRemovalStep m op).1
    unfold confirmRemovalStep
    by_cases hd : removeDisabled m.selection = true
    · rw [if_pos hd]
      exact ⟨hm1, hm2⟩
    · rw [if_neg hd]
      unfold handleRemoveLogo
      by_cases hg : (m.frameSrc = none ∨ m.selection = none)
      · rw [if_pos hg]
        exact ⟨hm1, hm2⟩
      · rw [if_neg hg]
        have hfr : m.frameSrc ≠ none := fun hcontra => hg (Or.inl hcontra)
        cases hout : removeObjectFromFrame op with
        | ok v =>
          refine ⟨fun hst => ?_, fun hq => ?_⟩
          · simp at hst
          · simp at hq
        | error e =>
          refine ⟨fun _ =>
            ⟨e, rfl, removeObjectFromFrame_error_ne_empty op e hout⟩,
            fun _ => Or.inl hfr⟩
  | generateVideo op =>
    show Inv (handleGenerateVideo m (generateVideoFromFrame op)).1
    unfold handleGenerateVideo
    by_cases hg : m.processedImageSrc = none
    · rw [if_pos hg]
      exact ⟨hm1, hm2⟩
    · rw [if_neg hg]
      cases hout : generateVideoFromFrame op with
      | ok v =>
        refine ⟨fun hst => ?_, fun hq => ?_⟩
        · simp at hst
        · simp at hq
      | error e =>
        refine ⟨fun _ =>
          ⟨e, rfl, generateVideoFromFrame_error_ne_empty op e hout⟩,
          fun _ => Or.inr hg⟩

theorem inv_foldl (evs : List Event) :
    ∀ m, Inv m → Inv (List.foldl step m evs) := by
  induction evs with
  | nil => intro m hm; exact hm
  | cons ev rest ih => intro m hm; exact ih (step m ev) (inv_step m ev hm)

theorem inv_init : Inv initModel :=
  ⟨fun h => by simp [initModel] at h, fun h => by simp [initModel] at h⟩

/-- C9: in every reachable state of the application, being in the `error`
state implies a non-null, non-empty stored error message: every failure
path (frame extraction, Inpaint, Animate) stores one before entering
`error`, and no error is silently swallowed. -/
theorem c9_error_state_has_message (evs : List Event)
    (h : (run evs).appState = .error) :
    ∃ s, (run evs).error = some s ∧ s ≠ "" :=
  (inv_foldl evs initModel inv_init).1 h

/-- Witness for C9: a failed frame extraction reaches `error` with a
non-empty message. -/
theorem c9_error_state_has_message_witness :
    ∃ s, (run [Event.fileSelect "f" (Except.error "x")]).error = some s ∧
      s ≠ "" :=
  c9_error_state_has_message [Event.fileSelect "f" (Except.error "x")] rfl

end LogoRemover
